import Mathlib

/-!
Shallow embedding of the MedScribe mock REST API (files `app.py` and
`medscribe_api.py`). Every handler in the repository is a pure function of
its request inputs: handlers build local literals and return them, nothing
is written to module-level state. Nondeterministic environment inputs
(the `uuid.uuid4()` token, `datetime.now()`, the JWT identity) are passed
to the embedded handlers as explicit parameters.
-/

/-- Models Python `str.lower` on a single character, as used by the
repository (all catalog names are ASCII): an ASCII uppercase letter
(code points 65 to 90) is shifted down into lowercase; every other
character is returned unchanged. -/
def lowerChar (c : Char) : Char :=
  if 65 ≤ c.toNat ∧ c.toNat ≤ 90 then Char.ofNat (c.toNat + 32) else c

/-- Models Python `str.upper` on a single character. On the ASCII range
it is exact: a lowercase letter (code points 97 to 122) is shifted up
into uppercase. Python's `str.upper` additionally applies the Unicode
case mappings; of those, this model includes the two used in this
development, both of which map a non-ASCII letter to an ASCII one:
U+017F latin small letter long s uppercases to `'S'` and U+0131 latin
small letter dotless i uppercases to `'I'`. Every remaining character is
returned unchanged, so outside ASCII and these two letters the model
understates Python's uppercasing. -/
def upperChar (c : Char) : Char :=
  if 97 ≤ c.toNat ∧ c.toNat ≤ 122 then Char.ofNat (c.toNat - 32)
  else if c = 'ſ' then 'S'
  else if c = 'ı' then 'I'
  else c

/-- Models Python `s.lower()`: lowercases every character of the string. -/
def pyLower (s : String) : String :=
  ⟨s.data.map lowerChar⟩

/-- Models Python `s.upper()`: uppercases every character of the string
(exact on ASCII; see `upperChar` for the non-ASCII coverage). -/
def pyUpper (s : String) : String :=
  ⟨s.data.map upperChar⟩

/-- Models Python's `needle in haystack` on strings: `needle` occurs as a
contiguous substring of `haystack`. -/
def pyContains (haystack needle : String) : Bool :=
  decide (needle.data <:+: haystack.data)

/-- `s` begins with the prefix string `p` (models Python `s.startswith(p)`
and the spec's "begins with"). -/
def strStartsWith (s p : String) : Bool :=
  decide (p.data <+: s.data)

/-- An entry of the medicine search catalog (`medicine_database_model`):
an id and a name, both strings. -/
structure MedEntry where
  id : String
  name : String
deriving DecidableEq

/-- An entry of the medicine-list response (`GET /medicines`). The `name`
field is optional because in `medscribe_api.py` one element of the list
literal is a dict carrying only an `"id"` key and no `"name"` key. -/
structure DbEntry where
  id : String
  name : Option String
deriving DecidableEq

/-- View of a search-catalog entry as a list-response entry (a dict with
both an `"id"` and a `"name"` key). -/
def toDb (m : MedEntry) : DbEntry :=
  ⟨m.id, some m.name⟩

/-- The `all_medicines` literal of `MedicineSearch.get`
(`medscribe_api.py` lines 816-831; the literal in `app.py` lines 658-673
is textually identical). -/
def all_medicines : List MedEntry :=
  [⟨"med-1", "Amoxicillin 250mg"⟩,
   ⟨"med-2", "Amoxicillin 500mg"⟩,
   ⟨"med-3", "Aspirin 81mg"⟩,
   ⟨"med-4", "Aspirin 325mg"⟩,
   ⟨"med-5", "Atorvastatin 10mg"⟩,
   ⟨"med-6", "Atorvastatin 20mg"⟩,
   ⟨"med-7", "Atorvastatin 40mg"⟩,
   ⟨"med-8", "Atorvastatin 80mg"⟩,
   ⟨"med-9", "Lisinopril 5mg"⟩,
   ⟨"med-10", "Lisinopril 10mg"⟩,
   ⟨"med-11", "Lisinopril 20mg"⟩,
   ⟨"med-12", "Metformin 500mg"⟩,
   ⟨"med-13", "Metformin 850mg"⟩,
   ⟨"med-14", "Metformin 1000mg"⟩]

/-- The `medicines` literal of `MedicineList.get` in `app.py`
(lines 629-644): fourteen entries, all with a name. -/
def medicines_app : List DbEntry :=
  [⟨"med-1", some "Amoxicillin 250mg"⟩,
   ⟨"med-2", some "Amoxicillin 500mg"⟩,
   ⟨"med-3", some "Aspirin 81mg"⟩,
   ⟨"med-4", some "Aspirin 325mg"⟩,
   ⟨"med-5", some "Atorvastatin 10mg"⟩,
   ⟨"med-6", some "Atorvastatin 20mg"⟩,
   ⟨"med-7", some "Atorvastatin 40mg"⟩,
   ⟨"med-8", some "Atorvastatin 80mg"⟩,
   ⟨"med-9", some "Lisinopril 5mg"⟩,
   ⟨"med-10", some "Lisinopril 10mg"⟩,
   ⟨"med-11", some "Lisinopril 20mg"⟩,
   ⟨"med-12", some "Metformin 500mg"⟩,
   ⟨"med-13", some "Metformin 850mg"⟩,
   ⟨"med-14", some "Metformin 1000mg"⟩]

/-- The `medicines` literal of `MedicineList.get` in `medscribe_api.py`
(lines 787-802). Its twelfth element is the dict
`{"id": "med- personally identifiable information redacted"}`, which has
no `"name"` key, where the search literal has
`{"id": "med-12", "name": "Metformin 500mg"}`. -/
def medicines_medscribe : List DbEntry :=
  [⟨"med-1", some "Amoxicillin 250mg"⟩,
   ⟨"med-2", some "Amoxicillin 500mg"⟩,
   ⟨"med-3", some "Aspirin 81mg"⟩,
   ⟨"med-4", some "Aspirin 325mg"⟩,
   ⟨"med-5", some "Atorvastatin 10mg"⟩,
   ⟨"med-6", some "Atorvastatin 20mg"⟩,
   ⟨"med-7", some "Atorvastatin 40mg"⟩,
   ⟨"med-8", some "Atorvastatin 80mg"⟩,
   ⟨"med-9", some "Lisinopril 5mg"⟩,
   ⟨"med-10", some "Lisinopril 10mg"⟩,
   ⟨"med-11", some "Lisinopril 20mg"⟩,
   ⟨"med- personally identifiable information redacted", none⟩,
   ⟨"med-13", some "Metformin 850mg"⟩,
   ⟨"med-14", some "Metformin 1000mg"⟩]

/-- The filter condition of `MedicineSearch.get`
(`query.lower() in med["name"].lower()`). -/
def searchMatches (query : String) (med : MedEntry) : Bool :=
  pyContains (pyLower med.name) (pyLower query)

/-- `MedicineSearch.get` (`medscribe_api.py` lines 811-839, identical in
`app.py` lines 653-681): returns the filtered catalog when the query is a
nonempty string (Python truthiness of `if query:`), the full catalog
otherwise, always with HTTP status 200. -/
def MedicineSearch_get (query : String) : List MedEntry × Nat :=
  (if query = "" then all_medicines else all_medicines.filter (searchMatches query), 200)

/-- An entry of the faceted medicine responses (`medicine_extended_model`):
id, name, therapeutic group, company and description. -/
structure MedExtEntry where
  id : String
  name : String
  group : String
  company : String
  description : String
deriving DecidableEq

/-- The `'med-9'` Lisinopril 5mg record of the faceted literals. -/
def lisinopril5 : MedExtEntry :=
  ⟨"med-9", "Lisinopril 5mg", "ACE Inhibitor", "AstraZeneca",
   "Used to treat high blood pressure and heart failure"⟩

/-- The `'med-10'` Lisinopril 10mg record of the faceted literals. -/
def lisinopril10 : MedExtEntry :=
  ⟨"med-10", "Lisinopril 10mg", "ACE Inhibitor", "AstraZeneca",
   "Used to treat high blood pressure and heart failure"⟩

/-- The `'med-11'` Lisinopril 20mg record of the faceted literals. -/
def lisinopril20 : MedExtEntry :=
  ⟨"med-11", "Lisinopril 20mg", "ACE Inhibitor", "AstraZeneca",
   "Used to treat high blood pressure and heart failure"⟩

/-- The `'med-15'` Enalapril 5mg record of the by-group literal. -/
def enalapril5 : MedExtEntry :=
  ⟨"med-15", "Enalapril 5mg", "ACE Inhibitor", "Merck",
   "Used to treat high blood pressure, diabetic kidney disease, and heart failure"⟩

/-- The `'med-5'` Atorvastatin 10mg record of the faceted literals. -/
def atorvastatin10 : MedExtEntry :=
  ⟨"med-5", "Atorvastatin 10mg", "Statin", "Pfizer",
   "Used to lower blood cholesterol levels"⟩

/-- The `'med-6'` Atorvastatin 20mg record of the faceted literals. -/
def atorvastatin20 : MedExtEntry :=
  ⟨"med-6", "Atorvastatin 20mg", "Statin", "Pfizer",
   "Used to lower blood cholesterol levels"⟩

/-- The `'med-7'` Atorvastatin 40mg record of the faceted literals. -/
def atorvastatin40 : MedExtEntry :=
  ⟨"med-7", "Atorvastatin 40mg", "Statin", "Pfizer",
   "Used to lower blood cholesterol levels"⟩

/-- The `'med-8'` Atorvastatin 80mg record of the faceted literals. -/
def atorvastatin80 : MedExtEntry :=
  ⟨"med-8", "Atorvastatin 80mg", "Statin", "Pfizer",
   "Used to lower blood cholesterol levels"⟩

/-- `MedicinesByGroup.get` (`medscribe_api.py` lines 1305-1377): the
group `"ACE Inhibitor"` yields its four-element literal (three Lisinopril
strengths and Enalapril 5mg), the group `"Statin"` yields the four
Atorvastatin strengths, and every other group yields the empty list; the
status is always 200. -/
def MedicinesByGroup_get (group : String) : List MedExtEntry × Nat :=
  (if group = "ACE Inhibitor" then
    [lisinopril5, lisinopril10, lisinopril20, enalapril5]
  else if group = "Statin" then
    [atorvastatin10, atorvastatin20, atorvastatin40, atorvastatin80]
  else [], 200)

/-- `MedicinesByCompany.get` (`medscribe_api.py` lines 1385-1450): the
company `"AstraZeneca"` yields the three Lisinopril strengths, the
company `"Pfizer"` yields the four Atorvastatin strengths, and every
other company yields the empty list; the status is always 200. -/
def MedicinesByCompany_get (company : String) : List MedExtEntry × Nat :=
  (if company = "AstraZeneca" then
    [lisinopril5, lisinopril10, lisinopril20]
  else if company = "Pfizer" then
    [atorvastatin10, atorvastatin20, atorvastatin40, atorvastatin80]
  else [], 200)

/-- A login request body (the `login_model`): an email and a password.
The handler reads only the email. -/
structure LoginBody where
  email : String
  password : String

/-- The user record fabricated by `Login.post`. -/
structure UserOut where
  id : String
  email : String
  name : String
  role : String
deriving DecidableEq

/-- The user id built by `Login.post` (line 229 of `medscribe_api.py`,
line 161 of `app.py`): `"usr-" + str(uuid.uuid4())[:8]`. The
`uuid.uuid4()` string drawn from the process random source is the
explicit parameter `tok`. -/
def Login_userId (tok : String) : String :=
  "usr-" ++ ⟨tok.data.take 8⟩

/-- `Login.post` (`medscribe_api.py` lines 222-253, identical in `app.py`
lines 154-185): fabricates a user from the submitted email. The role is
`"doctor"` when the substring `"doctor"` occurs in the email (Python
`'doctor' in data['email']`), `"patient"` otherwise; the status is 200 on
both branches and no branch returns an authentication failure. -/
def Login_post (data : LoginBody) (tok : String) : UserOut × Nat :=
  let user_id := Login_userId tok
  if pyContains data.email "doctor" then
    (⟨user_id, data.email, "Dr. Sarah Williams", "doctor"⟩, 200)
  else
    (⟨user_id, data.email, "John Smith", "patient"⟩, 200)

/-- The user id built by `DoctorRegister.post` (`medscribe_api.py` line
267): `str(uuid.uuid4())` with no prefix at all. -/
def DoctorRegister_userId (tok : String) : String :=
  tok

/-- The user id built by `PatientRegister.post` (`medscribe_api.py` line
297): `str(uuid.uuid4())` with no prefix at all. -/
def PatientRegister_userId (tok : String) : String :=
  tok

/-- The prescription id built by `PrescriptionList.post` (line 583):
`'pres-' + str(uuid.uuid4())[:6]`. -/
def PrescriptionCreate_id (tok : String) : String :=
  "pres-" ++ ⟨tok.data.take 6⟩

/-- The health tip id built by `HealthTipList.post` (line 895):
`'tip-' + str(uuid.uuid4())[:6]`. -/
def HealthTipCreate_id (tok : String) : String :=
  "tip-" ++ ⟨tok.data.take 6⟩

/-- A character that may occur in the string form of a version-4 UUID: a
hyphen or a lowercase hexadecimal digit. -/
def uuidChar (c : Char) : Bool :=
  c = '-' || (('0' ≤ c && c ≤ '9') || ('a' ≤ c && c ≤ 'f'))

/-- Models the string form of Python's `uuid.uuid4()` (external `uuid`
library): 36 characters, lowercase hexadecimal digits with hyphens at
positions 8, 13, 18 and 23. -/
def isUuidStr (s : String) : Bool :=
  s.data.length = 36 && s.data.all uuidChar &&
    (s.data.enum.all fun p =>
      if p.1 = 8 ∨ p.1 = 13 ∨ p.1 = 18 ∨ p.1 = 23 then p.2 = '-' else p.2 ≠ '-')

/-- A prescribed medicine as carried in request and response bodies
(the `medicine_model`): id, name, dosage, timing, instructions. -/
structure MedicineItem where
  id : String
  name : String
  dosage : String
  timing : String
  instructions : String
deriving DecidableEq

/-- Body of `POST /prescriptions` (the `prescription_create_model`);
optional fields mirror the handler's `data.get` calls. -/
structure PresCreateBody where
  patientId : String
  diseaseDescription : String
  medicines : List MedicineItem
  followUpDate : Option String
  advice : Option String
deriving DecidableEq

/-- Body of `PUT /prescriptions/{id}`; every field the handler reads with
`data.get` is optional here. The two datetime fields are absent because
the handler recomputes them through `datetime.fromisoformat`, modelled as
oracle parameters of the request (the `datetime` library is external). -/
structure PresUpdateBody where
  patientId : Option String
  diseaseDescription : Option String
  medicines : Option (List MedicineItem)
  advice : Option String
  status : Option String
deriving DecidableEq

/-- A prescription response payload (the `prescription_model`); datetime
fields are opaque strings. -/
structure PrescriptionOut where
  id : String
  doctorId : String
  patientId : String
  date : String
  diseaseDescription : String
  medicines : List MedicineItem
  followUpDate : Option String
  advice : String
  status : String
deriving DecidableEq

/-- An inbound request, together with the nondeterministic environment
inputs its handler consumes: `tok` is the `uuid.uuid4()` string, `now`
the `datetime.now()` value, `auth` the JWT identity (`none` when
`get_jwt_identity` raises), and for the update handler `date` and
`followUpDate` are the results of its `datetime.fromisoformat` parsing
block. -/
inductive Request where
  | listMedicines
  | searchMedicines (query : String)
  | medicinesByGroup (group : String)
  | medicinesByCompany (company : String)
  | createPrescription (body : PresCreateBody) (tok : String) (now : String) (auth : Option String)
  | updatePrescription (id : String) (body : PresUpdateBody) (date : String) (followUpDate : Option String) (auth : Option String)
  | deleteDoctor (id : String) (auth : Option String)
  | deletePatient (id : String) (auth : Option String)
deriving DecidableEq

/-- A response: a JSON payload together with the HTTP status code. -/
inductive Response where
  | medList (body : List DbEntry) (status : Nat)
  | medSearch (body : List MedEntry) (status : Nat)
  | medFacet (body : List MedExtEntry) (status : Nat)
  | prescription (body : PrescriptionOut) (status : Nat)
  | noContent (status : Nat)
  | message (text : String) (status : Nat)
deriving DecidableEq

/-- The default `medicines` literal of the prescription update handler
(`medscribe_api.py` lines 682-690). -/
def defaultUpdateMedicines : List MedicineItem :=
  [⟨"med-1", "Lisinopril 10mg", "1", "morning", "Take with or without food"⟩]

/-- Dispatch of `medscribe_api.py` request handlers, each embedded from
its source:
`MedicineList.get` (lines 784-803), `MedicineSearch.get` (811-839),
`MedicinesByGroup.get` (1305-1377), `MedicinesByCompany.get`
(1385-1450), `PrescriptionList.post` (568-596), `Prescription.put`
(652-696), `Doctor.delete` (394-404) and `Patient.delete` (512-522).
Every handler builds its payload from local literals and its own inputs
and returns it; none of them reads or writes module-level state, so
`handle` is a function of the single request alone. -/
def handle : Request → Response
  | .listMedicines => .medList medicines_medscribe 200
  | .searchMedicines query =>
      .medSearch (MedicineSearch_get query).1 (MedicineSearch_get query).2
  | .medicinesByGroup group =>
      .medFacet (MedicinesByGroup_get group).1 (MedicinesByGroup_get group).2
  | .medicinesByCompany company =>
      .medFacet (MedicinesByCompany_get company).1 (MedicinesByCompany_get company).2
  | .createPrescription body tok now auth =>
      .prescription
        ⟨PrescriptionCreate_id tok, auth.getD "doc-12345678", body.patientId, now,
         body.diseaseDescription, body.medicines, body.followUpDate,
         body.advice.getD "", "active"⟩ 201
  | .updatePrescription id body date followUpDate auth =>
      .prescription
        ⟨id, auth.getD "doc-12345678", body.patientId.getD "pat-12345678", date,
         body.diseaseDescription.getD "Hypertension",
         body.medicines.getD defaultUpdateMedicines, followUpDate,
         body.advice.getD "", body.status.getD "active"⟩ 200
  | .deleteDoctor _ auth =>
      match auth with
      | none => .message "Authentication required" 401
      | some _ => .noContent 204
  | .deletePatient _ auth =>
      match auth with
      | none => .message "Authentication required" 401
      | some _ => .noContent 204

/-- The responses produced by serving a sequence of requests in order. -/
def runTrace (rs : List Request) : List Response :=
  rs.map handle

/-- The response to request `r` served after the request history
`history` has been processed. -/
def responseAfter (history : List Request) (r : Request) : Option Response :=
  (runTrace (history ++ [r])).getLast?

theorem charToNat_ofNat_of_valid {n : Nat} (h : n.isValidChar) :
    (Char.ofNat n).toNat = n := by
  unfold Char.ofNat
  rw [dif_pos h]
  rfl

theorem lowerChar_lowerChar (c : Char) : lowerChar (lowerChar c) = lowerChar c := by
  by_cases h : 65 ≤ c.toNat ∧ c.toNat ≤ 90
  · have hv : (c.toNat + 32).isValidChar := Or.inl (by omega)
    have ht : (Char.ofNat (c.toNat + 32)).toNat = c.toNat + 32 :=
      charToNat_ofNat_of_valid hv
    have h1 : lowerChar c = Char.ofNat (c.toNat + 32) := by
      unfold lowerChar
      rw [if_pos h]
    rw [h1]
    unfold lowerChar
    rw [ht, if_neg (by omega)]
  · have h1 : lowerChar c = c := by
      unfold lowerChar
      rw [if_neg h]
    rw [h1]
    exact h1

theorem lowerChar_upperChar (c : Char) (hc : c.toNat ≤ 127) :
    lowerChar (upperChar c) = lowerChar c := by
  by_cases h : 97 ≤ c.toNat ∧ c.toNat ≤ 122
  · have hv : (c.toNat - 32).isValidChar := Or.inl (by omega)
    have ht : (Char.ofNat (c.toNat - 32)).toNat = c.toNat - 32 :=
      charToNat_ofNat_of_valid hv
    have h1 : upperChar c = Char.ofNat (c.toNat - 32) := by
      unfold upperChar
      rw [if_pos h]
    have h2 : lowerChar c = c := by
      unfold lowerChar
      rw [if_neg (by omega)]
    rw [h2, h1]
    unfold lowerChar
    rw [ht, if_pos (by omega)]
    have h3 : c.toNat - 32 + 32 = c.toNat := by omega
    rw [h3, Char.ofNat_toNat]
  · have hs : c ≠ 'ſ' := fun he => absurd (he ▸ hc) (by decide)
    have hi : c ≠ 'ı' := fun he => absurd (he ▸ hc) (by decide)
    have h1 : upperChar c = c := by
      unfold upperChar
      rw [if_neg h, if_neg hs, if_neg hi]
    rw [h1]

theorem mapLower_mapLower (l : List Char) :
    (l.map lowerChar).map lowerChar = l.map lowerChar := by
  induction l with
  | nil => rfl
  | cons a t ih => simp [ih, lowerChar_lowerChar]

theorem mapLower_mapUpper (l : List Char)
    (h : l.all (fun c => c.toNat ≤ 127) = true) :
    (l.map upperChar).map lowerChar = l.map lowerChar := by
  induction l with
  | nil => rfl
  | cons a t ih =>
    simp only [List.all_cons, Bool.and_eq_true] at h
    obtain ⟨ha, ht⟩ := h
    simp [ih ht, lowerChar_upperChar a (of_decide_eq_true ha)]

theorem pyLower_pyLower (s : String) : pyLower (pyLower s) = pyLower s :=
  congrArg String.mk (mapLower_mapLower s.data)

theorem pyLower_pyUpper (s : String)
    (h : s.data.all (fun c => c.toNat ≤ 127) = true) :
    pyLower (pyUpper s) = pyLower s :=
  congrArg String.mk (mapLower_mapUpper s.data h)

theorem pyLower_eq_empty (s : String) : pyLower s = "" ↔ s = "" := by
  obtain ⟨l⟩ := s
  constructor
  · intro h
    have h2 : l.map lowerChar = [] := congrArg String.data h
    have h3 : l = [] := List.map_eq_nil_iff.mp h2
    rw [h3]
  · intro h
    rw [h]
    rfl

theorem pyUpper_eq_empty (s : String) : pyUpper s = "" ↔ s = "" := by
  obtain ⟨l⟩ := s
  constructor
  · intro h
    have h2 : l.map upperChar = [] := congrArg String.data h
    have h3 : l = [] := List.map_eq_nil_iff.mp h2
    rw [h3]
  · intro h
    rw [h]
    rfl

theorem searchMatches_pyLower (q : String) :
    searchMatches (pyLower q) = searchMatches q := by
  funext med
  unfold searchMatches
  rw [pyLower_pyLower]

theorem searchMatches_pyUpper (q : String)
    (h : q.data.all (fun c => c.toNat ≤ 127) = true) :
    searchMatches (pyUpper q) = searchMatches q := by
  funext med
  unfold searchMatches
  rw [pyLower_pyUpper q h]

theorem search_get_pyLower (q : String) :
    MedicineSearch_get (pyLower q) = MedicineSearch_get q := by
  unfold MedicineSearch_get
  by_cases hq : q = ""
  · subst hq
    rfl
  · have h2 : pyLower q ≠ "" := fun h => hq ((pyLower_eq_empty q).mp h)
    rw [if_neg h2, if_neg hq, searchMatches_pyLower]

theorem search_get_pyUpper (q : String)
    (h : q.data.all (fun c => c.toNat ≤ 127) = true) :
    MedicineSearch_get (pyUpper q) = MedicineSearch_get q := by
  unfold MedicineSearch_get
  by_cases hq : q = ""
  · subst hq
    rfl
  · have h2 : pyUpper q ≠ "" := fun he => hq ((pyUpper_eq_empty q).mp he)
    rw [if_neg h2, if_neg hq, searchMatches_pyUpper q h]



theorem strData_append (p s : String) : (p ++ s).data = p.data ++ s.data := by
  obtain ⟨a⟩ := p
  obtain ⟨b⟩ := s
  rfl

theorem strStartsWith_append (p s : String) : strStartsWith (p ++ s) p = true := by
  unfold strStartsWith
  rw [strData_append]
  exact decide_eq_true (List.prefix_append p.data s.data)

theorem uuid_no_doc (tok : String) (h : isUuidStr tok = true) :
    strStartsWith (DoctorRegister_userId tok) "doc-" = false := by
  unfold DoctorRegister_userId
  cases hsw : strStartsWith tok "doc-" with
  | false => rfl
  | true =>
    exfalso
    unfold strStartsWith at hsw
    have hpre : ("doc-" : String).data <+: tok.data := of_decide_eq_true hsw
    obtain ⟨t, ht⟩ := hpre
    unfold isUuidStr at h
    simp only [Bool.and_eq_true] at h
    obtain ⟨⟨hlen, hall⟩, hdash⟩ := h
    have hmem : 'o' ∈ tok.data := by
      rw [← ht]
      simp
    have ho : uuidChar 'o' = true := List.all_eq_true.mp hall 'o' hmem
    exact absurd ho (by decide)

theorem lastOfAppend {α : Type} (l : List α) (a : α) :
    (l ++ [a]).getLast? = some a := by
  induction l with
  | nil => rfl
  | cons b t ih =>
    rw [List.cons_append, List.getLast?_cons, ih]
    rfl

theorem search_get_eq_filter (q : String) :
    MedicineSearch_get q = (all_medicines.filter (searchMatches q), 200) := by
  unfold MedicineSearch_get
  by_cases hq : q = ""
  · subst hq
    rw [if_pos rfl]
    decide
  · rw [if_neg hq]

/-- C1: for every query string `q`, `GET /medicines/search?query=q`
returns exactly the catalog records whose name contains `q` as a
case-insensitive substring, preserving catalog order (the result is the
order-preserving filter of the catalog by that predicate), and the empty
query returns the full catalog in original order. -/
theorem C1_search_filters_catalog (q : String) :
    MedicineSearch_get q = (all_medicines.filter (searchMatches q), 200) ∧
    MedicineSearch_get "" = (all_medicines, 200) :=
  ⟨search_get_eq_filter q, by decide⟩

/-- C2 counterexample: `GET /medicines/by-group/ACE%20Inhibitor` does not
return only Lisinopril-strength entries: its fourth record is
Enalapril 5mg (id `med-15`, company Merck), so the claim that the result
is exactly the Lisinopril entries and no other records is false. -/
theorem C2_counterexample :
    (MedicinesByGroup_get "ACE Inhibitor").1.map MedExtEntry.name
      = ["Lisinopril 5mg", "Lisinopril 10mg", "Lisinopril 20mg", "Enalapril 5mg"] ∧
    ((MedicinesByGroup_get "ACE Inhibitor").1.all
      fun m => strStartsWith m.name "Lisinopril") = false := by
  decide

/-- C2 amended: `GET /medicines/by-group/ACE%20Inhibitor` returns exactly
the three Lisinopril-strength entries followed by Enalapril 5mg, every
returned record has group equal to the requested group, and any group
other than "ACE Inhibitor" and "Statin" (such as "nonexistent") yields an
empty sequence with status 200 rather than an error. -/
theorem C2_group_filter :
    (MedicinesByGroup_get "ACE Inhibitor").1
      = [lisinopril5, lisinopril10, lisinopril20, enalapril5] ∧
    ((MedicinesByGroup_get "ACE Inhibitor").1.all
      fun m => m.group == "ACE Inhibitor") = true ∧
    ∀ g : String, g ≠ "ACE Inhibitor" → g ≠ "Statin" →
      MedicinesByGroup_get g = ([], 200) := by
  refine ⟨by decide, by decide, ?_⟩
  intro g h1 h2
  unfold MedicinesByGroup_get
  rw [if_neg h1, if_neg h2]

theorem C2_group_filter_witness :
    MedicinesByGroup_get "nonexistent" = ([], 200) :=
  C2_group_filter.2.2 "nonexistent" (by decide) (by decide)

/-- C3 counterexample: a valid `uuid.uuid4()` string exists (here a
concrete one) for which the identifier generated at doctor registration
is the bare token itself and does not begin with `doc-`, so the claim
that every generated identifier carries a kind-specific prefix and that
doctor-kind identifiers always begin with `doc-` is false. -/
theorem C3_counterexample :
    isUuidStr "a3f0c2d1-9b4e-4c6a-8d2f-5e7a9b0c1d2e" = true ∧
    DoctorRegister_userId "a3f0c2d1-9b4e-4c6a-8d2f-5e7a9b0c1d2e"
      = "a3f0c2d1-9b4e-4c6a-8d2f-5e7a9b0c1d2e" ∧
    strStartsWith (DoctorRegister_userId "a3f0c2d1-9b4e-4c6a-8d2f-5e7a9b0c1d2e")
      "doc-" = false := by
  refine ⟨by decide, rfl, ?_⟩
  decide

/-- C3 amended: identifiers generated at login begin with `usr-`, at
prescription creation with `pres-`, and at health tip creation with
`tip-`; identifiers generated at doctor and patient registration are the
bare random token with no kind prefix, and in particular a doctor
registration identifier never begins with `doc-` when the token is a
version-4 UUID string. -/
theorem C3_id_scheme (tok : String) :
    strStartsWith (Login_userId tok) "usr-" = true ∧
    strStartsWith (PrescriptionCreate_id tok) "pres-" = true ∧
    strStartsWith (HealthTipCreate_id tok) "tip-" = true ∧
    DoctorRegister_userId tok = tok ∧
    PatientRegister_userId tok = tok ∧
    (isUuidStr tok = true →
      strStartsWith (DoctorRegister_userId tok) "doc-" = false) := by
  refine ⟨?_, ?_, ?_, rfl, rfl, uuid_no_doc tok⟩
  · exact strStartsWith_append "usr-" ⟨tok.data.take 8⟩
  · exact strStartsWith_append "pres-" ⟨tok.data.take 6⟩
  · exact strStartsWith_append "tip-" ⟨tok.data.take 6⟩

theorem C3_id_scheme_witness :
    strStartsWith (Login_userId "a3f0c2d1-9b4e-4c6a-8d2f-5e7a9b0c1d2e") "usr-" = true ∧
    strStartsWith (DoctorRegister_userId "a3f0c2d1-9b4e-4c6a-8d2f-5e7a9b0c1d2e")
      "doc-" = false :=
  ⟨(C3_id_scheme "a3f0c2d1-9b4e-4c6a-8d2f-5e7a9b0c1d2e").1,
   (C3_id_scheme "a3f0c2d1-9b4e-4c6a-8d2f-5e7a9b0c1d2e").2.2.2.2.2 (by decide)⟩

/-- C4: for every login body (an email and a password) and every random
token, `POST /auth/login` returns status 200 with a user whose email is
the submitted email and whose role is "doctor" exactly when the substring
"doctor" occurs in the submitted email and "patient" otherwise; no input
reaches an authentication-failure response. -/
theorem C4_login_always_succeeds (data : LoginBody) (tok : String) :
    (Login_post data tok).2 = 200 ∧
    (Login_post data tok).1.email = data.email ∧
    (Login_post data tok).1.role
      = (if pyContains data.email "doctor" then "doctor" else "patient") := by
  cases h : pyContains data.email "doctor" <;>
    simp [Login_post, h]

/-- C5: the medicine catalog is read-only. No handler of the program
reads or writes shared state, so after any request history (including
prescription creation and update and doctor and patient deletion) the
response to `GET /medicines` and to `GET /medicines/search` is identical
to its value at startup (the empty history): the fixed list literal and
the fixed search result. -/
theorem C5_catalog_readonly (history : List Request) (q : String) :
    responseAfter history Request.listMedicines
      = responseAfter [] Request.listMedicines ∧
    responseAfter history (Request.searchMedicines q)
      = responseAfter [] (Request.searchMedicines q) ∧
    responseAfter history Request.listMedicines
      = some (Response.medList medicines_medscribe 200) ∧
    responseAfter history (Request.searchMedicines q)
      = some (Response.medSearch (all_medicines.filter (searchMatches q)) 200) := by
  have hl : ∀ (h : List Request) (r : Request),
      responseAfter h r = some (handle r) := by
    intro h r
    unfold responseAfter runTrace
    rw [List.map_append]
    exact lastOfAppend _ _
  refine ⟨by rw [hl, hl], by rw [hl, hl], by rw [hl]; rfl, ?_⟩
  rw [hl]
  show some (Response.medSearch (MedicineSearch_get q).1 (MedicineSearch_get q).2) = _
  rw [search_get_eq_filter q]

/-- C6: `GET /medicines/by-group/Statin` returns exactly four records,
the Atorvastatin 10mg, 20mg, 40mg and 80mg entries, each with group
"Statin" and company "Pfizer". -/
theorem C6_statin_entries :
    MedicinesByGroup_get "Statin"
      = ([atorvastatin10, atorvastatin20, atorvastatin40, atorvastatin80], 200) ∧
    (MedicinesByGroup_get "Statin").1.length = 4 ∧
    ((MedicinesByGroup_get "Statin").1.all
      fun m => m.group == "Statin" && m.company == "Pfizer") = true ∧
    (MedicinesByGroup_get "Statin").1.map MedExtEntry.name
      = ["Atorvastatin 10mg", "Atorvastatin 20mg", "Atorvastatin 40mg",
         "Atorvastatin 80mg"] := by
  refine ⟨by decide, by decide, by decide, by decide⟩

/-- C7 counterexample: the query invariance under upper-casing fails for
non-ASCII queries. Python's `str.upper` maps U+017F latin small letter
long s (`'ſ'`) to `'S'`, so at the query `"ſ"` the claim's three
searches disagree: searching `"ſ"` (and its lowercase, which is `"ſ"`
itself) matches no catalog name and returns the empty list, while
searching the upper-cased query `"S"` returns the nine records whose
name contains an `s`; hence the universally quantified claim is false at
the explicit input `"ſ"`. -/
theorem C7_counterexample :
    pyUpper "ſ" = "S" ∧
    pyLower "ſ" = "ſ" ∧
    MedicineSearch_get "ſ" = ([], 200) ∧
    (MedicineSearch_get (pyUpper "ſ")).1.length = 9 ∧
    MedicineSearch_get (pyUpper "ſ") ≠ MedicineSearch_get "ſ" := by
  refine ⟨by decide, by decide, by decide, by decide, by decide⟩

/-- C7 amended: for every query `q` consisting of ASCII characters,
searching with `q`, with `q` lower-cased and with `q` upper-cased
returns the same sequence (for non-ASCII queries Python's Unicode case
mappings can change the result, see the `"ſ"` counterexample); in
particular "lisin", "Lisin" and "LISIN" each return exactly the three
Lisinopril entries. -/
theorem C7_search_case_insensitive_ascii (q : String)
    (h : q.data.all (fun c => c.toNat ≤ 127) = true) :
    MedicineSearch_get (pyLower q) = MedicineSearch_get q ∧
    MedicineSearch_get (pyUpper q) = MedicineSearch_get q ∧
    MedicineSearch_get "lisin"
      = ([⟨"med-9", "Lisinopril 5mg"⟩, ⟨"med-10", "Lisinopril 10mg"⟩,
          ⟨"med-11", "Lisinopril 20mg"⟩], 200) ∧
    MedicineSearch_get "Lisin" = MedicineSearch_get "lisin" ∧
    MedicineSearch_get "LISIN" = MedicineSearch_get "lisin" := by
  refine ⟨search_get_pyLower q, search_get_pyUpper q h, by decide, by decide, by decide⟩

theorem C7_search_case_insensitive_ascii_witness :
    MedicineSearch_get (pyUpper "Lisin") = MedicineSearch_get "Lisin" ∧
    MedicineSearch_get (pyLower "Lisin") = MedicineSearch_get "Lisin" :=
  ⟨(C7_search_case_insensitive_ascii "Lisin" (by decide)).2.1,
   (C7_search_case_insensitive_ascii "Lisin" (by decide)).1⟩

/-- C8: none of the catalog operations fail: for every string input the
search, by-group and by-company handlers return status 200 (the status
component of every branch is the literal 200, there is no error branch),
and a non-matching input yields an empty sequence with status 200. -/
theorem C8_no_failures (q g c : String) :
    (MedicineSearch_get q).2 = 200 ∧
    (MedicinesByGroup_get g).2 = 200 ∧
    (MedicinesByCompany_get c).2 = 200 ∧
    MedicinesByGroup_get "nonexistent" = ([], 200) ∧
    MedicinesByCompany_get "nonexistent" = ([], 200) ∧
    MedicineSearch_get "zzz" = ([], 200) := by
  refine ⟨rfl, rfl, rfl, by decide, by decide, by decide⟩

/-- C9: the catalog literal of the medicine-list handler and the catalog
literal of the medicine-search handler coincide in `app.py`, but in
`medscribe_api.py` they differ at index 11: the list literal holds a
record with id `"med- personally identifiable information redacted"` and
no name where the search literal holds id `"med-12"` with name
`"Metformin 500mg"`; the two literals agree everywhere else. -/
theorem C9_catalog_literals :
    medicines_app = all_medicines.map toDb ∧
    medicines_medscribe ≠ all_medicines.map toDb ∧
    medicines_medscribe[11]?
      = some ⟨"med- personally identifiable information redacted", none⟩ ∧
    (all_medicines.map toDb)[11]? = some ⟨"med-12", some "Metformin 500mg"⟩ ∧
    medicines_medscribe.take 11 = (all_medicines.map toDb).take 11 ∧
    medicines_medscribe.drop 12 = (all_medicines.map toDb).drop 12 := by
  refine ⟨by decide, by decide, by decide, by decide, by decide, by decide⟩

/-- C10 counterexample: the Enalapril 5mg record is returned by
`GET /medicines/by-group/ACE%20Inhibitor` and carries company "Merck",
but `GET /medicines/by-company/Merck` returns the empty sequence, so the
mutual-consistency claim between the two facet views is false. -/
theorem C10_counterexample :
    enalapril5 ∈ (MedicinesByGroup_get "ACE Inhibitor").1 ∧
    enalapril5.company = "Merck" ∧
    enalapril5 ∉ (MedicinesByCompany_get "Merck").1 := by
  refine ⟨by decide, rfl, by decide⟩

/-- C10 amended: every record returned by the company filter also
appears in the group filter of its own group field; and every record
returned by the group filter, except the Merck record (Enalapril 5mg),
also appears in the company filter of its own company field. -/
theorem C10_facet_consistency (g c : String) :
    (∀ m, m ∈ (MedicinesByCompany_get c).1
      → m ∈ (MedicinesByGroup_get m.group).1) ∧
    (∀ m, m ∈ (MedicinesByGroup_get g).1 → m.company ≠ "Merck"
      → m ∈ (MedicinesByCompany_get m.company).1) := by
  constructor
  · intro m hm
    by_cases hc : c = "AstraZeneca"
    · subst hc
      have e : (MedicinesByCompany_get "AstraZeneca").1
          = [lisinopril5, lisinopril10, lisinopril20] := by decide
      rw [e] at hm
      fin_cases hm <;> decide
    · by_cases hc2 : c = "Pfizer"
      · subst hc2
        have e : (MedicinesByCompany_get "Pfizer").1
            = [atorvastatin10, atorvastatin20, atorvastatin40, atorvastatin80] := by
          decide
        rw [e] at hm
        fin_cases hm <;> decide
      · have e : (MedicinesByCompany_get c).1 = [] := by
          unfold MedicinesByCompany_get
          rw [if_neg hc, if_neg hc2]
        rw [e] at hm
        exact absurd hm (List.not_mem_nil m)
  · intro m hm hMerck
    by_cases hg : g = "ACE Inhibitor"
    · subst hg
      have e : (MedicinesByGroup_get "ACE Inhibitor").1
          = [lisinopril5, lisinopril10, lisinopril20, enalapril5] := by decide
      rw [e] at hm
      fin_cases hm <;> first | decide | exact absurd (by decide) hMerck
    · by_cases hg2 : g = "Statin"
      · subst hg2
        have e : (MedicinesByGroup_get "Statin").1
            = [atorvastatin10, atorvastatin20, atorvastatin40, atorvastatin80] := by
          decide
        rw [e] at hm
        fin_cases hm <;> decide
      · have e : (MedicinesByGroup_get g).1 = [] := by
          unfold MedicinesByGroup_get
          rw [if_neg hg, if_neg hg2]
        rw [e] at hm
        exact absurd hm (List.not_mem_nil m)

theorem C10_facet_consistency_witness :
    lisinopril5 ∈ (MedicinesByGroup_get "ACE Inhibitor").1 ∧
    atorvastatin10 ∈ (MedicinesByCompany_get "Pfizer").1 :=
  ⟨(C10_facet_consistency "Statin" "AstraZeneca").1 lisinopril5 (by decide),
   (C10_facet_consistency "Statin" "AstraZeneca").2 atorvastatin10 (by decide)
     (by decide)⟩
